import Mathlib

/-!
# Verification of the OpticalSystemsLab ray-tracing core

A shallow embedding of the ray-tracing / sensor-accumulation engine of the
OpticalSystemsLab repository (files `optics-components.js`, V2.4, and
`optics-core.js`, V3.3), with theorems checking the natural-language
specification against it.

Modelling conventions:
* JavaScript IEEE-754 numbers are idealised as real numbers `ℝ`.
* Each element's `worldToLocal` is expanded algebraically from the fixed
  mesh rotation set at creation time (e.g. `rotation.y = π/2` gives
  `local.x = -(p.z - pos.z)`, `local.y = p.y - pos.y`).
* `THREE.Plane.intersectLine`, `THREE.Vector3.normalize`, `reflect` and
  `lerp` are modelled from the THREE.js library semantics (external
  dependency of the repository).
* `Math.random()` is modelled as an indexed oracle `ℕ → ℝ`, consumed in
  call order.
-/

namespace OpticsLab

/-- A 3-D vector / point (`THREE.Vector3`). -/
structure Vec3 where
  x : ℝ
  y : ℝ
  z : ℝ

instance : Add Vec3 := ⟨fun a b => ⟨a.x + b.x, a.y + b.y, a.z + b.z⟩⟩

instance : Sub Vec3 := ⟨fun a b => ⟨a.x - b.x, a.y - b.y, a.z - b.z⟩⟩

instance : SMul ℝ Vec3 := ⟨fun c v => ⟨c * v.x, c * v.y, c * v.z⟩⟩

/-- Dot product (`THREE.Vector3.dot`). -/
def Vec3.dot (a b : Vec3) : ℝ := a.x * b.x + a.y * b.y + a.z * b.z

/-- Euclidean length (`THREE.Vector3.length`). -/
noncomputable def Vec3.length (v : Vec3) : ℝ := Real.sqrt (v.x ^ 2 + v.y ^ 2 + v.z ^ 2)

/-- Model of `THREE.Vector3.normalize`: divide by the length (a zero vector is
returned unchanged, matching `divideScalar(length || 1)` since over `ℝ`
division by zero yields zero and the zero vector is fixed anyway). -/
noncomputable def Vec3.normalize (v : Vec3) : Vec3 := (1 / v.length) • v

/-- Model of `THREE.Vector3.reflect`: `d - 2 (d · n) n`. -/
def Vec3.reflect (d n : Vec3) : Vec3 := d - (2 * Vec3.dot d n) • n

/-- An RGB triple (`THREE.Color` or a plain `{r, g, b}` record). -/
structure RGB where
  r : ℝ
  g : ℝ
  b : ℝ

/-- Componentwise sum of RGB contributions. -/
def RGB.add (a b : RGB) : RGB := ⟨a.r + b.r, a.g + b.g, a.b + b.b⟩

/-- Componentwise order on RGB cells. -/
def RGB.le (a b : RGB) : Prop := a.r ≤ b.r ∧ a.g ≤ b.g ∧ a.b ≤ b.b

/-- The `Ray` class of `optics-core.js`: origin, direction (normalised by
the constructor), wavelength in nm (default 532), optional explicit color,
and the `diffractionOrder` tag that grating interactions attach after
construction. -/
structure Ray where
  origin : Vec3
  direction : Vec3
  wavelength : ℝ
  color : Option RGB
  diffractionOrder : Option ℤ

/-- The `Ray` constructor: stores the origin and the normalised direction;
`diffractionOrder` starts absent. -/
noncomputable def mkRay (origin direction : Vec3) (wavelength : ℝ) (color : Option RGB) : Ray :=
  ⟨origin, direction.normalize, wavelength, color, none⟩

/-- The shapes a `processRay` result can take in the source: `null`,
`{newRay}`, `{newRays}`, or `{intersection, wavelength?, color?}`. -/
inductive ProcessResult where
  | noInteraction
  | newRay (r : Ray)
  | newRays (rs : List Ray)
  | absorbed (intersection : Vec3) (wavelength : Option ℝ) (color : Option RGB)

/-- The ray parameter of the intersection with the transverse plane
`x = posX`, as computed by `(pos.x - ray.origin.x) / ray.direction.x` in
the lens, grating, slit and aperture `processRay` bodies. -/
noncomputable def planeT (posX : ℝ) (ray : Ray) : ℝ :=
  (posX - ray.origin.x) / ray.direction.x

/-- The point `origin + t * direction`
(`ray.origin.clone().add(ray.direction.clone().multiplyScalar(t))`). -/
noncomputable def rayAt (ray : Ray) (t : ℝ) : Vec3 := ray.origin + t • ray.direction

/-- JavaScript `Math.atan2(y, x)`. -/
noncomputable def jsAtan2 (y x : ℝ) : ℝ :=
  if 0 < x then Real.arctan (y / x)
  else if x < 0 then
    (if 0 ≤ y then Real.arctan (y / x) + Real.pi else Real.arctan (y / x) - Real.pi)
  else if 0 < y then Real.pi / 2
  else if y < 0 then -(Real.pi / 2)
  else 0

/-! ## Optical elements (`optics-components.js`, V2.4) -/

/-- Translation of `createLens(...).processRay` (`optics-components.js` 20-45).  The lens
plane is `x = pos.x`; the cylinder mesh has `rotation.z = π/2`, so the
local frame satisfies `local.x = p.y - pos.y` and `local.z = p.z - pos.z`,
giving `distFromCenter = sqrt((p.y - pos.y)² + (p.z - pos.z)²)`; the
aperture radius (`radiusTop`) is 3.5. -/
noncomputable def lensProcessRay (pos : Vec3) (focalLength : ℝ) (ray : Ray) : ProcessResult :=
  if ray.direction.x = 0 then ProcessResult.noInteraction
  else
    let t := planeT pos.x ray
    if 1e-6 < t then
      let P := rayAt ray t
      let distFromCenter := Real.sqrt ((P.y - pos.y) ^ 2 + (P.z - pos.z) ^ 2)
      if distFromCenter ≤ 7 / 2 then
        let y := P.y - pos.y
        let z := P.z - pos.z
        let newDir : Vec3 :=
          ⟨ray.direction.x, ray.direction.y - y / focalLength, ray.direction.z - z / focalLength⟩
        ProcessResult.newRay (mkRay P newDir ray.wavelength ray.color)
      else ProcessResult.noInteraction
    else ProcessResult.noInteraction

/-- A `THREE.Plane` (unit-normal representation, `constant = -n·p`). -/
structure PlaneRec where
  normal : Vec3
  constant : ℝ

/-- Model of `THREE.Plane.setFromNormalAndCoplanarPoint`. -/
def planeFromNormalAndCoplanarPoint (n p : Vec3) : PlaneRec := ⟨n, -(Vec3.dot p n)⟩

/-- Model of `THREE.Plane.distanceToPoint`. -/
def planeDistanceToPoint (pl : PlaneRec) (p : Vec3) : ℝ := Vec3.dot pl.normal p + pl.constant

/-- Model of `THREE.Plane.intersectLine(line, target)` for the segment from `s` to
`e`: intersects only within the segment (`0 ≤ t ≤ 1` of the segment
parameter); a line parallel to the plane hits only when its start lies in
the plane. -/
noncomputable def intersectLine (pl : PlaneRec) (s e : Vec3) : Option Vec3 :=
  let dir := e - s
  let denom := Vec3.dot pl.normal dir
  if denom = 0 then
    if planeDistanceToPoint pl s = 0 then some s else none
  else
    let t := -(Vec3.dot s pl.normal + pl.constant) / denom
    if t < 0 ∨ 1 < t then none else some (s + t • dir)

/-- The world normal `(0,0,1)` rotated by the mesh quaternion when the only
rotation is `rotation.y = θ`: `R_y(θ)(0,0,1) = (sin θ, 0, cos θ)`. -/
noncomputable def rotYNormal (θ : ℝ) : Vec3 := ⟨Real.sin θ, 0, Real.cos θ⟩

/-- Model of `mesh.worldToLocal` for a mesh positioned at `pos` with
`rotation.y = θ`: apply `R_y(-θ)` to `p - pos`. -/
noncomputable def worldToLocalY (θ : ℝ) (pos p : Vec3) : Vec3 :=
  ⟨(p.x - pos.x) * Real.cos θ - (p.z - pos.z) * Real.sin θ,
   p.y - pos.y,
   (p.x - pos.x) * Real.sin θ + (p.z - pos.z) * Real.cos θ⟩

/-- The endpoint `origin + 100·direction` of the finite probe segment used
by the mirror, spherical-mirror and detector `processRay` bodies. -/
noncomputable def segmentEnd (ray : Ray) : Vec3 := ray.origin + (100 : ℝ) • ray.direction

/-- Translation of `createMirror(...).processRay` (`optics-components.js` 64-79); the mesh
rotation is `rotation.y = θ` with `θ = -angle·π/180`. -/
noncomputable def mirrorProcessRay (pos : Vec3) (θ : ℝ) (ray : Ray) : ProcessResult :=
  let normal := rotYNormal θ
  let pl := planeFromNormalAndCoplanarPoint normal pos
  match intersectLine pl ray.origin (segmentEnd ray) with
  | none => ProcessResult.noInteraction
  | some P =>
    if Vec3.dot ray.direction (P - ray.origin) < 0 then ProcessResult.noInteraction
    else
      let localPoint := worldToLocalY θ pos P
      if |localPoint.x| ≤ 5 / 2 ∧ |localPoint.y| ≤ 5 / 2 then
        ProcessResult.newRay (mkRay P (Vec3.reflect ray.direction normal) ray.wavelength ray.color)
      else ProcessResult.noInteraction

/-- Translation of `createSphericalMirror(...).processRay` (`optics-components.js`
97-117); the mesh rotation is `rotation.y = θ` with
`θ = -π/2 - angle·π/180`. -/
noncomputable def sphericalMirrorProcessRay (pos : Vec3) (θ : ℝ) (radius : ℝ) (ray : Ray) :
    ProcessResult :=
  let normal := rotYNormal θ
  let pl := planeFromNormalAndCoplanarPoint normal pos
  match intersectLine pl ray.origin (segmentEnd ray) with
  | none => ProcessResult.noInteraction
  | some P =>
    if Vec3.dot ray.direction (P - ray.origin) < 0 then ProcessResult.noInteraction
    else
      let localPoint := worldToLocalY θ pos P
      if |localPoint.x| ≤ 5 / 2 ∧ |localPoint.y| ≤ 5 / 2 then
        let focalLength := -radius / 2
        let reflectedDir := Vec3.reflect ray.direction normal
        let displacement := P - pos
        let correction := (-1 / focalLength) • displacement
        let newDir := (reflectedDir + correction).normalize
        ProcessResult.newRay (mkRay P newDir ray.wavelength ray.color)
      else ProcessResult.noInteraction

/-- Translation of `createDetector(...).processRay` (`optics-components.js` 133-144): a
plane with normal `(1,0,0)`; any forward segment hit is absorbed, carrying
the ray's wavelength and color. -/
noncomputable def detectorProcessRay (pos : Vec3) (ray : Ray) : ProcessResult :=
  let pl := planeFromNormalAndCoplanarPoint ⟨1, 0, 0⟩ pos
  match intersectLine pl ray.origin (segmentEnd ray) with
  | none => ProcessResult.noInteraction
  | some P =>
    if 0 < Vec3.dot ray.direction (P - ray.origin) then
      ProcessResult.absorbed P (some ray.wavelength) ray.color
    else ProcessResult.noInteraction

/-- The diffraction orders the grating keeps: those `m ∈ {-1,0,1}` with
`|m·λ/d| ≤ 1`, `d = 1e6/linesPerMM` nm. -/
noncomputable def gratingOrders (wavelength linesPerMM : ℝ) : List ℤ :=
  ([-1, 0, 1] : List ℤ).filter fun m =>
    |((m : ℝ) * wavelength) / (1000000 / linesPerMM)| ≤ 1

/-- The child ray the grating emits for order `m` (loop body of
`createDiffractionGrating(...).processRay`): rotate the incident
direction's angle in the x-y plane by `θ_m = asin(m·λ/d)` and tag the ray
with its diffraction order. -/
noncomputable def gratingChild (pos : Vec3) (linesPerMM : ℝ) (ray : Ray) (m : ℤ) : Ray :=
  let t := planeT pos.x ray
  let P := rayAt ray t
  let d := 1000000 / linesPerMM
  let sinThetaM := ((m : ℝ) * ray.wavelength) / d
  let thetaM := Real.arcsin sinThetaM
  let originalAngle := jsAtan2 ray.direction.y ray.direction.x
  let newAngle := originalAngle + thetaM
  { mkRay P ⟨Real.cos newAngle, Real.sin newAngle, ray.direction.z⟩ ray.wavelength ray.color
      with diffractionOrder := some m }

/-- Translation of `createDiffractionGrating(...).processRay` (`optics-components.js`
158-188).  The grating plane is `x = pos.x`; the mesh has
`rotation.y = π/2`, so `local.x = -(p.z - pos.z)` and
`local.y = p.y - pos.y`; the plate is 5×5. -/
noncomputable def gratingProcessRay (pos : Vec3) (linesPerMM : ℝ) (ray : Ray) : ProcessResult :=
  let t := planeT pos.x ray
  if 1e-6 < t then
    let P := rayAt ray t
    let localX := -(P.z - pos.z)
    let localY := P.y - pos.y
    if |localY| ≤ 5 / 2 ∧ |localX| ≤ 5 / 2 then
      ProcessResult.newRays
        (([-1, 0, 1] : List ℤ).filterMap fun (m : ℤ) =>
          if |((m : ℝ) * ray.wavelength) / (1000000 / linesPerMM)| ≤ 1 then
            some (gratingChild pos linesPerMM ray m)
          else none)
    else ProcessResult.noInteraction
  else ProcessResult.noInteraction

/-- Translation of `createOpticalSlit(...).processRay` (`optics-components.js` 232-249).
The plate plane is `x = pos.x`, `rotation.y = π/2`
(`local.x = -(p.z - pos.z)`, `local.y = p.y - pos.y`); the open region is
the centred `slitWidth × slitHeight` rectangle, the opaque plate is 5×5. -/
noncomputable def slitProcessRay (pos : Vec3) (slitWidth slitHeight : ℝ) (ray : Ray) :
    ProcessResult :=
  let t := planeT pos.x ray
  if 1e-6 < t then
    let P := rayAt ray t
    let localX := -(P.z - pos.z)
    let localY := P.y - pos.y
    if |localX| ≤ slitWidth / 2 ∧ |localY| ≤ slitHeight / 2 then
      ProcessResult.newRay (mkRay P ray.direction ray.wavelength ray.color)
    else
      if |localX| ≤ 5 / 2 ∧ |localY| ≤ 5 / 2 then
        ProcessResult.absorbed P none none
      else ProcessResult.noInteraction
  else ProcessResult.noInteraction

/-- Translation of `createAperture(...).processRay` (`optics-components.js` 292-311).
Same frame as the slit; the open region is the centred disc of the given
diameter, the opaque plate is 5×5. -/
noncomputable def apertureProcessRay (pos : Vec3) (diameter : ℝ) (ray : Ray) : ProcessResult :=
  let t := planeT pos.x ray
  if 1e-6 < t then
    let P := rayAt ray t
    let localX := -(P.z - pos.z)
    let localY := P.y - pos.y
    let distanceFromCenter := Real.sqrt (localX ^ 2 + localY ^ 2)
    if distanceFromCenter ≤ diameter / 2 then
      ProcessResult.newRay (mkRay P ray.direction ray.wavelength ray.color)
    else
      if |localX| ≤ 5 / 2 ∧ |localY| ≤ 5 / 2 then
        ProcessResult.absorbed P none none
      else ProcessResult.noInteraction
  else ProcessResult.noInteraction

/-! ## Color science (`optics-core.js` 15-53) -/

/-- The base `(r, g, b)` of `wavelengthToRGB` before the intensity factor. -/
noncomputable def wavelengthBaseRGB (wavelength : ℝ) : RGB :=
  if 380 ≤ wavelength ∧ wavelength < 440 then ⟨-(wavelength - 440) / (440 - 380), 0, 1⟩
  else if 440 ≤ wavelength ∧ wavelength < 490 then ⟨0, (wavelength - 440) / (490 - 440), 1⟩
  else if 490 ≤ wavelength ∧ wavelength < 510 then ⟨0, 1, -(wavelength - 510) / (510 - 490)⟩
  else if 510 ≤ wavelength ∧ wavelength < 580 then ⟨(wavelength - 510) / (580 - 510), 1, 0⟩
  else if 580 ≤ wavelength ∧ wavelength < 645 then ⟨1, -(wavelength - 645) / (645 - 580), 0⟩
  else if 645 ≤ wavelength ∧ wavelength ≤ 780 then ⟨1, 0, 0⟩
  else ⟨0, 0, 0⟩

/-- The intensity-falloff factor of `wavelengthToRGB`. -/
noncomputable def wavelengthIntensityFactor (wavelength : ℝ) : ℝ :=
  if 380 ≤ wavelength ∧ wavelength < 420 then 0.3 + 0.7 * (wavelength - 380) / (420 - 380)
  else if 420 ≤ wavelength ∧ wavelength < 701 then 1
  else if 701 ≤ wavelength ∧ wavelength ≤ 780 then 0.3 + 0.7 * (780 - wavelength) / (780 - 701)
  else 0

/-- Translation of `wavelengthToRGB` (`optics-core.js` 15-41): piecewise-linear hue ramp
times the intensity factor. -/
noncomputable def wavelengthToRGB (wavelength : ℝ) : RGB :=
  let base := wavelengthBaseRGB wavelength
  let factor := wavelengthIntensityFactor wavelength
  ⟨base.r * factor, base.g * factor, base.b * factor⟩

/-- The three sensor color-filter channels. -/
inductive FilterChannel where
  | R
  | G
  | B

/-- Translation of `getFilterResponse` (`optics-core.js` 43-53): Gaussian
`exp(-(λ-peak)²/(2·width²))` with peaks/widths R:600/50, G:540/50,
B:450/50. -/
noncomputable def getFilterResponse (wavelength : ℝ) (c : FilterChannel) : ℝ :=
  let pw : ℝ × ℝ :=
    match c with
    | FilterChannel.R => (600, 50)
    | FilterChannel.G => (540, 50)
    | FilterChannel.B => (450, 50)
  Real.exp (-((wavelength - pw.1) ^ 2) / (2 * pw.2 ^ 2))

/-! ## Sensor accumulator (`optics-core.js` 366-369, 392-417, 456-497) -/

/-- The two accumulation grids and their running maxima
(`sensorIntensities`, `trueColorIntensities`, `maxSensorIntensity`,
`maxTrueColorIntensity`). -/
structure AccumState (n : ℕ) where
  sensor : Fin n → Fin n → RGB
  trueColor : Fin n → Fin n → RGB
  maxSensor : ℝ
  maxTrueColor : ℝ

/-- The accumulator at the start of a trace: zero-filled grids, zero
maxima (`optics-core.js` 366-369). -/
def initAccum (n : ℕ) : AccumState n :=
  ⟨fun _ _ => ⟨0, 0, 0⟩, fun _ _ => ⟨0, 0, 0⟩, 0, 0⟩

/-- The detector's horizontal pixel index of a world-space hit point
(`optics-core.js` 395): the detector plane mesh has `rotation.y = π/2`, so
`local.x = -(p.z - pos.z)`; the plate is 5 wide. -/
noncomputable def detectorPixelX (n : ℕ) (detPos point : Vec3) : ℤ :=
  Int.floor (((-(point.z - detPos.z)) / 5 + 0.5) * n)

/-- The detector's vertical pixel index (`optics-core.js` 396):
`local.y = p.y - pos.y`, negated before scaling. -/
noncomputable def detectorPixelY (n : ℕ) (detPos point : Vec3) : ℤ :=
  Int.floor ((-(point.y - detPos.y) / 5 + 0.5) * n)

/-- Point update of a grid at row `i`, column `j`. -/
def updCell {n : ℕ} (g : Fin n → Fin n → RGB) (i j : Fin n) (v : RGB) :
    Fin n → Fin n → RGB :=
  fun a b => if a = i ∧ b = j then v else g a b

/-- What one hit adds to a `sensor` grid cell: the explicit color when the
ray carries one, else the three Gaussian filter responses. -/
noncomputable def sensorContribution (wavelength : ℝ) (resolvedColor : Option RGB) : RGB :=
  match resolvedColor with
  | some c => c
  | none =>
    ⟨getFilterResponse wavelength FilterChannel.R,
     getFilterResponse wavelength FilterChannel.G,
     getFilterResponse wavelength FilterChannel.B⟩

/-- What one hit adds to a `trueColor` grid cell: the explicit color when
the ray carries one, else the wavelength-derived color. -/
noncomputable def trueColorContribution (wavelength : ℝ) (resolvedColor : Option RGB) : RGB :=
  match resolvedColor with
  | some c => c
  | none => wavelengthToRGB wavelength

/-- One detector accumulation (`optics-core.js` 393-417): project the hit
to integer pixel coordinates; if inside `[0,n)×[0,n)`, add the resolved
explicit color to both grids, or else the Gaussian filter responses to the
`sensor` grid and `wavelengthToRGB` to the `trueColor` grid, then fold the
updated cell's components into the running maxima; otherwise leave the
state untouched. -/
noncomputable def applyDetectorHit (n : ℕ) (detPos : Vec3) (s : AccumState n)
    (point : Vec3) (wavelength : ℝ) (resolvedColor : Option RGB) : AccumState n :=
  let px := detectorPixelX n detPos point
  let py := detectorPixelY n detPos point
  if h : 0 ≤ px ∧ px < n ∧ 0 ≤ py ∧ py < n then
    let i : Fin n := ⟨py.toNat, by omega⟩
    let j : Fin n := ⟨px.toNat, by omega⟩
    let sNew := RGB.add (s.sensor i j) (sensorContribution wavelength resolvedColor)
    let tNew := RGB.add (s.trueColor i j) (trueColorContribution wavelength resolvedColor)
    { sensor := updCell s.sensor i j sNew
      trueColor := updCell s.trueColor i j tNew
      maxSensor := max s.maxSensor (max sNew.r (max sNew.g sNew.b))
      maxTrueColor := max s.maxTrueColor (max tNew.r (max tNew.g tNew.b)) }
  else s

/-- A recorded detector absorption: hit point, wavelength, and the color
already resolved as `result.color || originalRay.color`. -/
structure Hit where
  point : Vec3
  wavelength : ℝ
  resolvedColor : Option RGB

/-- Run a sequence of detector accumulations. -/
noncomputable def runHits (n : ℕ) (detPos : Vec3) (s : AccumState n) (hits : List Hit) :
    AccumState n :=
  hits.foldl (fun st h => applyDetectorHit n detPos st h.point h.wavelength h.resolvedColor) s

/-- The scalar a cell contributes to its grid's running maximum. -/
def cellMax (c : RGB) : ℝ := max c.r (max c.g c.b)

/-- The componentwise maximum a running maximum is supposed to track:
`max` of all cells' components, floored at the initial 0. -/
noncomputable def gridMax {n : ℕ} (g : Fin n → Fin n → RGB) : ℝ :=
  Finset.univ.fold max 0 fun p : Fin n × Fin n => cellMax (g p.1 p.2)

/-- Both running maxima agree with the componentwise maximum over the
cells they track. -/
noncomputable def maxInvariant {n : ℕ} (s : AccumState n) : Prop :=
  s.maxSensor = gridMax s.sensor ∧ s.maxTrueColor = gridMax s.trueColor

/-- Pointwise order between accumulator states: every cell of both grids
is componentwise `≤`. -/
def accumLe {n : ℕ} (s t : AccumState n) : Prop :=
  (∀ i j, RGB.le (s.sensor i j) (t.sensor i j)) ∧
    ∀ i j, RGB.le (s.trueColor i j) (t.trueColor i j)

/-- An explicit hit color, when present, is componentwise non-negative. -/
def hitNonneg (h : Hit) : Prop :=
  ∀ c, h.resolvedColor = some c → 0 ≤ c.r ∧ 0 ≤ c.g ∧ 0 ≤ c.b

/-- JavaScript `Math.round`: half-up, `⌊x + 0.5⌋`. -/
noncomputable def jsRound (x : ℝ) : ℤ := Int.floor (x + 0.5)

/-- The sensor output modes of the final image pass. -/
inductive SensorType where
  | grayscale
  | bayer
  | demosaiced

/-- The final image pass for one pixel (`optics-core.js` 456-497): start
from `r = g = b = 0`; normalise by the relevant grid's running maximum
only when it is positive; `demosaiced` reads the `trueColor` grid,
`bayer` masks one normalised `sensor` channel per pixel by the 2×2
G/R/B/G pattern, `grayscale` averages the three normalised `sensor`
channels. -/
noncomputable def finalPixel (n : ℕ) (sensorType : SensorType) (s : AccumState n)
    (y x : Fin n) : ℤ × ℤ × ℤ :=
  match sensorType with
  | SensorType.demosaiced =>
    if 0 < s.maxTrueColor then
      let p := s.trueColor y x
      (jsRound (255 * (p.r / s.maxTrueColor)),
       jsRound (255 * (p.g / s.maxTrueColor)),
       jsRound (255 * (p.b / s.maxTrueColor)))
    else (0, 0, 0)
  | SensorType.bayer =>
    if 0 < s.maxSensor then
      let p := s.sensor y x
      let r := jsRound (255 * (p.r / s.maxSensor))
      let g := jsRound (255 * (p.g / s.maxSensor))
      let b := jsRound (255 * (p.b / s.maxSensor))
      if y.val % 2 = 0 then
        if x.val % 2 = 0 then (0, g, 0) else (r, 0, 0)
      else
        if x.val % 2 = 0 then (0, 0, b) else (0, g, 0)
    else (0, 0, 0)
  | SensorType.grayscale =>
    if 0 < s.maxSensor then
      let p := s.sensor y x
      let r := jsRound (255 * (p.r / s.maxSensor))
      let g := jsRound (255 * (p.g / s.maxSensor))
      let b := jsRound (255 * (p.b / s.maxSensor))
      let gray := jsRound (((r : ℝ) + (g : ℝ) + (b : ℝ)) / 3)
      (gray, gray, gray)
    else (0, 0, 0)

/-- Multiply every accumulated cell intensity and both running maxima by a
constant. -/
noncomputable def scaleAccum {n : ℕ} (c : ℝ) (s : AccumState n) : AccumState n :=
  { sensor := fun i j => ⟨c * (s.sensor i j).r, c * (s.sensor i j).g, c * (s.sensor i j).b⟩
    trueColor :=
      fun i j => ⟨c * (s.trueColor i j).r, c * (s.trueColor i j).g, c * (s.trueColor i j).b⟩
    maxSensor := c * s.maxSensor
    maxTrueColor := c * s.maxTrueColor }

/-! ## Seed-ray pattern generation (`optics-core.js` 250-364) -/

/-- The laser source patterns of the `switch (laserPattern)`. -/
inductive LaserPattern where
  | line
  | radial
  | cross
  | disc
  | heart
  | star
  | smile
deriving DecidableEq

/-- The wavelength configuration: `"white"` expands to `[450, 532, 650]`,
anything else is a single wavelength. -/
inductive WavelengthSetting where
  | white
  | mono (nm : ℝ)

/-- The expansion `(wavelength === "white") ? [450, 532, 650] : [wavelength]`. -/
noncomputable def wavelengthList (ws : WavelengthSetting) : List ℝ :=
  match ws with
  | WavelengthSetting.white => [450, 532, 650]
  | WavelengthSetting.mono nm => [nm]

/-- Vertex `k` of the star silhouette (the `vertices` array): alternating
outer radius `beamSize/2 = 1/2` and inner radius `1/4`, at angle
`k·π/5 - π/2`; returned as `(x, y)`. -/
noncomputable def starVertex (k : ℕ) : ℝ × ℝ :=
  let radius : ℝ := if k % 2 = 0 then 1 / 2 else 1 / 4
  let angle : ℝ := k * (Real.pi / 5) - Real.pi / 2
  (radius * Real.cos angle, radius * Real.sin angle)

/-- Model of `THREE.Vector2.lerp`: `a + s·(b - a)` componentwise. -/
def lerp2 (a b : ℝ × ℝ) (s : ℝ) : ℝ × ℝ :=
  (a.1 + (b.1 - a.1) * s, a.2 + (b.2 - a.2) * s)

/-- Seed rays of one pattern for one wavelength (`optics-core.js`
256-361).  All seed rays start at `x = -9.75` offset from the laser
source's `(y, z)` and travel along `+x`; `beamSize = 1`.  `rand` is the
`Math.random()` oracle; only the `disc` pattern consumes it (two samples
per ray). -/
noncomputable def patternRays (pattern : LaserPattern) (rayCount : ℕ) (laserY laserZ wl : ℝ)
    (rand : ℕ → ℝ) : List Ray :=
  match pattern with
  | LaserPattern.line =>
    (List.range rayCount).map fun i =>
      let yOffset : ℝ :=
        if rayCount = 1 then 0 else -(1 / 2) + (i : ℝ) / ((rayCount : ℝ) - 1)
      mkRay ⟨-9.75, laserY + yOffset, laserZ⟩ ⟨1, 0, 0⟩ wl none
  | LaserPattern.radial =>
    (List.range rayCount).map fun i =>
      let angle : ℝ := ((i : ℝ) / (rayCount : ℝ)) * (2 * Real.pi)
      mkRay ⟨-9.75, laserY + Real.sin angle * (1 / 2), laserZ + Real.cos angle * (1 / 2)⟩
        ⟨1, 0, 0⟩ wl none
  | LaserPattern.cross =>
    let halfCount := rayCount / 2
    ((List.range halfCount).map fun i =>
      let yOffset : ℝ :=
        if halfCount ≤ 1 then 0 else -(1 / 2) + (i : ℝ) / ((halfCount : ℝ) - 1)
      mkRay ⟨-9.75, laserY + yOffset, laserZ⟩ ⟨1, 0, 0⟩ wl none) ++
      ((List.range halfCount).map fun i =>
        let zOffset : ℝ :=
          if halfCount ≤ 1 then 0 else -(1 / 2) + (i : ℝ) / ((halfCount : ℝ) - 1)
        mkRay ⟨-9.75, laserY, laserZ + zOffset⟩ ⟨1, 0, 0⟩ wl none)
  | LaserPattern.disc =>
    (List.range rayCount).map fun i =>
      let radius : ℝ := (1 / 2) * Real.sqrt (rand (2 * i))
      let angle : ℝ := rand (2 * i + 1) * (2 * Real.pi)
      mkRay ⟨-9.75, laserY + radius * Real.sin angle, laserZ + radius * Real.cos angle⟩
        ⟨1, 0, 0⟩ wl none
  | LaserPattern.heart =>
    (List.range rayCount).map fun i =>
      let t : ℝ := ((i : ℝ) / (rayCount : ℝ)) * (2 * Real.pi)
      let zOffset : ℝ := 16 * Real.sin t ^ 3 / 16 * (1 / 1.5)
      let yOffset : ℝ :=
        (13 * Real.cos t - 5 * Real.cos (2 * t) - 2 * Real.cos (3 * t) - Real.cos (4 * t)) /
          16 * (1 / 1.5)
      mkRay ⟨-9.75, laserY - yOffset, laserZ + zOffset⟩ ⟨1, 0, 0⟩ wl none
  | LaserPattern.star =>
    (List.range rayCount).map fun i =>
      let t : ℝ := ((i : ℝ) / (rayCount : ℝ)) * 10
      let startIndex : ℕ := (Int.floor t).toNat
      let endIndex : ℕ := (startIndex + 1) % 10
      let segmentT : ℝ := t - (startIndex : ℝ)
      let point := lerp2 (starVertex startIndex) (starVertex endIndex) segmentT
      mkRay ⟨-9.75, laserY + point.2, laserZ + point.1⟩ ⟨1, 0, 0⟩ wl none
  | LaserPattern.smile =>
    let headRays : ℕ := (Int.floor ((rayCount : ℝ) * 0.5)).toNat
    let eyeRays : ℕ := (Int.floor ((rayCount : ℝ) * 0.15)).toNat
    let mouthRays : ℕ := rayCount - headRays - 2 * eyeRays
    ((List.range headRays).map fun i =>
      let angle : ℝ := ((i : ℝ) / (headRays : ℝ)) * (2 * Real.pi)
      mkRay ⟨-9.75, laserY + (1 / 2) * Real.sin angle, laserZ + (1 / 2) * Real.cos angle⟩
        ⟨1, 0, 0⟩ wl none) ++
      ((List.range eyeRays).flatMap fun i =>
        let angle : ℝ := ((i : ℝ) / (eyeRays : ℝ)) * (2 * Real.pi)
        let yOffset : ℝ := 0.1 * Real.sin angle + 0.2
        [mkRay ⟨-9.75, laserY + yOffset, laserZ + (0.1 * Real.cos angle - 0.2)⟩ ⟨1, 0, 0⟩ wl none,
         mkRay ⟨-9.75, laserY + yOffset, laserZ + (0.1 * Real.cos angle + 0.2)⟩ ⟨1, 0, 0⟩
           wl none]) ++
      ((List.range mouthRays).map fun i =>
        let angle : ℝ := Real.pi + ((i : ℝ) / (mouthRays : ℝ)) * Real.pi
        mkRay ⟨-9.75, laserY + (0.3 * Real.sin angle - 0.1), laserZ + 0.3 * Real.cos angle⟩
          ⟨1, 0, 0⟩ wl none)

/-- The full seed population (`wavelengths.forEach` around the pattern
switch): the patterns of each wavelength, concatenated.  Each wavelength
block gets its own window of the random oracle (the `disc` pattern
consumes two samples per ray; no other pattern reads the oracle). -/
noncomputable def generateInitialRays (ws : WavelengthSetting) (pattern : LaserPattern)
    (rayCount : ℕ) (laserY laserZ : ℝ) (rand : ℕ → ℝ) : List Ray :=
  (wavelengthList ws).enum.flatMap fun p =>
    patternRays pattern rayCount laserY laserZ p.2 fun j => rand (p.1 * (2 * rayCount) + j)

/-! ## The propagation loop (`optics-core.js` 370-423) -/

/-- One `activePaths` entry: current ray, seed ray, polyline, and the
`terminated` / `hasSplit` flags. -/
structure PathState where
  ray : Ray
  originalRay : Ray
  path : List Vec3
  terminated : Bool
  hasSplit : Bool

/-- The closed set of element variants the loop dispatches over.  Mirror
variants carry their `rotation.y` angle in radians (`-angle·π/180` for the
flat mirror, `-π/2 - angle·π/180` for the spherical one). -/
inductive Element where
  | thinLens (pos : Vec3) (focalLength : ℝ)
  | flatMirror (pos : Vec3) (rotY : ℝ)
  | sphericalMirror (pos : Vec3) (rotY : ℝ) (radius : ℝ)
  | grating (pos : Vec3) (linesPerMM : ℝ)
  | slit (pos : Vec3) (slitWidth slitHeight : ℝ)
  | aperture (pos : Vec3) (diameter : ℝ)
  | detector (pos : Vec3)

/-- Element dispatch of `element.processRay(ray, originalRay)`; no V2.4
`processRay` body reads `originalRay`, so the dispatch ignores it. -/
noncomputable def processRayEl (el : Element) (ray : Ray) : ProcessResult :=
  match el with
  | Element.thinLens pos f => lensProcessRay pos f ray
  | Element.flatMirror pos θ => mirrorProcessRay pos θ ray
  | Element.sphericalMirror pos θ radius => sphericalMirrorProcessRay pos θ radius ray
  | Element.grating pos lpm => gratingProcessRay pos lpm ray
  | Element.slit pos w h => slitProcessRay pos w h ray
  | Element.aperture pos d => apertureProcessRay pos d ray
  | Element.detector pos => detectorProcessRay pos ray

/-- The test `element.type === "detector"`. -/
def Element.isDetector : Element → Bool
  | Element.detector _ => true
  | _ => false

/-- The element's mesh position. -/
def Element.pos : Element → Vec3
  | Element.thinLens p _ => p
  | Element.flatMirror p _ => p
  | Element.sphericalMirror p _ _ => p
  | Element.grating p _ => p
  | Element.slit p _ _ => p
  | Element.aperture p _ => p
  | Element.detector p => p

/-- The resolution `result.color || currentPath.originalRay.color`. -/
def resolveHitColor (resultColor originalColor : Option RGB) : Option RGB :=
  match resultColor with
  | some c => some c
  | none => originalColor

/-- The loop's handling of a detector absorption for one path
(`optics-core.js` 388-418): append the absorption point to the polyline,
mark the path terminated, and feed the accumulator with the hit point,
wavelength, and the color resolved as
`result.color || originalRay.color`. -/
noncomputable def detectorAbsorbStep (n : ℕ) (detPos : Vec3) (cp : PathState)
    (acc : AccumState n) (pt : Vec3) (wl : ℝ) (col : Option RGB) :
    PathState × AccumState n :=
  ({ cp with path := cp.path ++ [pt], terminated := true },
   applyDetectorHit n detPos acc pt wl (resolveHitColor col cp.originalRay.color))

/-- One round of the loop (`optics-core.js` 372-422): pass every
non-terminated path to the element; `newRays` forks the path with
`hasSplit`, `newRay` advances it, an absorption terminates it and — on a
detector — feeds the accumulator.  (A detector result always carries a
wavelength; the `getD 532` default is never exercised.) -/
noncomputable def traceStep (n : ℕ) (st : List PathState × AccumState n) (el : Element) :
    List PathState × AccumState n :=
  st.1.foldl
    (fun acc cp =>
      if cp.terminated then (acc.1 ++ [cp], acc.2)
      else
        match processRayEl el cp.ray with
        | ProcessResult.newRays rs =>
          (acc.1 ++ rs.map fun r =>
            ⟨r, cp.originalRay, cp.path ++ [r.origin], false, true⟩, acc.2)
        | ProcessResult.newRay r =>
          (acc.1 ++ [{ cp with ray := r, path := cp.path ++ [r.origin] }], acc.2)
        | ProcessResult.absorbed pt wl col =>
          if el.isDetector then
            let pr := detectorAbsorbStep n el.pos cp acc.2 pt (wl.getD 532) col
            (acc.1 ++ [pr.1], pr.2)
          else
            (acc.1 ++ [{ cp with path := cp.path ++ [pt], terminated := true }], acc.2)
        | ProcessResult.noInteraction => (acc.1 ++ [cp], acc.2))
    ([], st.2)

/-- The full forward sweep: seed the path population, then one round per
element in the configured order. -/
noncomputable def runTrace (n : ℕ) (els : List Element) (seeds : List Ray) :
    List PathState × AccumState n :=
  els.foldl (traceStep n) (seeds.map fun r => ⟨r, r, [r.origin], false, false⟩, initAccum n)

/-! ## Camera-image-object grid build (`optics-core.js` 92-249) -/

/-- The per-pixel result of the object-plane resolution: the color of the
perfect-image grid entry, and the `sourceDataGrid` entry (an optional
object-space origin plus a 0-1 scaled color). -/
structure SourceSample where
  perfectColor : RGB
  sourceOrigin : Option Vec3
  sourceColor : RGB

/-- Lines 110-154 of `optics-core.js` for one `(py, px)`: project the
sensor pixel through the lens with the conjugate equation
(`denominator = 1/f - 1/so`, `so = |sensorPoint.x - lensPos.x|`) and
sample the image object's texture at the resulting object-plane point.
When `|denominator| < 1e-9` (or the re-projected direction is parallel to
the lens plane) the sample is the defined fallback: black perfect-image
color, no source origin, black source color.  The detector plane mesh has
`rotation.y = π/2`, so `localToWorld (lx, -ly, 0) = pos + (0, -ly, -lx)`;
the image object plane at `imgObjPos` also has `rotation.y = π/2`, so its
`worldToLocal` gives `local.x = -(p.z - pos.z)`, `local.y = p.y - pos.y`.
`imgData` is the loaded texture, indexed `(imgX, imgY)`, values 0-255. -/
noncomputable def computeSourceSample (f : ℝ) (lensPos detPos : Vec3) (detW detH : ℝ)
    (gridSize : ℕ) (imgObjPos : Vec3) (imgObjW imgObjH : ℝ) (imgW imgH : ℕ)
    (imgData : ℕ → ℕ → RGB) (py px : ℕ) : SourceSample :=
  let localX := ((px : ℝ) / (gridSize : ℝ) - 0.5) * detW
  let localY := ((py : ℝ) / (gridSize : ℝ) - 0.5) * detH
  let sensorPoint : Vec3 := ⟨detPos.x, detPos.y - localY, detPos.z - localX⟩
  let dirToLens := (lensPos - sensorPoint).normalize
  let intersectOnLens :=
    sensorPoint + ((lensPos.x - sensorPoint.x) / dirToLens.x) • dirToLens
  let soCalc := |sensorPoint.x - lensPos.x|
  let denominator := 1 / f - 1 / soCalc
  if |denominator| < 1e-9 then ⟨⟨0, 0, 0⟩, none, ⟨0, 0, 0⟩⟩
  else
    let siCalc := 1 / denominator
    let M := -siCalc / soCalc
    let hoY := sensorPoint.y - lensPos.y
    let hoZ := sensorPoint.z - lensPos.z
    let objectPlanePoint : Vec3 :=
      ⟨lensPos.x + siCalc, lensPos.y + hoY * M, lensPos.z + hoZ * M⟩
    let dirFromLens := (objectPlanePoint - intersectOnLens).normalize
    if |dirFromLens.x| < 1e-9 then ⟨⟨0, 0, 0⟩, none, ⟨0, 0, 0⟩⟩
    else
      let objectHitPoint :=
        intersectOnLens + ((imgObjPos.x - intersectOnLens.x) / dirFromLens.x) • dirFromLens
      let u := -(objectHitPoint.z - imgObjPos.z) / imgObjW + 0.5
      let v := 1 - ((objectHitPoint.y - imgObjPos.y) / imgObjH + 0.5)
      let color : RGB :=
        if 0 ≤ u ∧ u < 1 ∧ 0 ≤ v ∧ v < 1 then
          imgData (Int.floor (u * imgW)).toNat (Int.floor (v * imgH)).toNat
        else ⟨0, 0, 0⟩
      ⟨color, some objectHitPoint, ⟨color.r / 255, color.g / 255, color.b / 255⟩⟩

/-- The cone of seed rays one visualised `sourceDataGrid` sample emits
(`optics-core.js` 234-246): five rays from the resolved object point
toward the lens center and the four aperture extremes, tagged with the
sample's color — emitted only when the sample has an origin and a
non-black color. -/
noncomputable def raysForSample (lensPos : Vec3) (lensRadius : ℝ) (sd : SourceSample) :
    List Ray :=
  match sd.sourceOrigin with
  | none => []
  | some origin =>
    if 0 < sd.sourceColor.r ∨ 0 < sd.sourceColor.g ∨ 0 < sd.sourceColor.b then
      ([lensPos,
        lensPos + (⟨0, lensRadius, 0⟩ : Vec3), lensPos + (⟨0, -lensRadius, 0⟩ : Vec3),
        lensPos + (⟨0, 0, lensRadius⟩ : Vec3), lensPos + (⟨0, 0, -lensRadius⟩ : Vec3)]).map
        fun target => mkRay origin (target - origin) 555 (some sd.sourceColor)
    else []

/-- The local `x` coordinate of the plane hit for the `rotation.y = π/2`
elements (grating, slit, aperture, detector). -/
noncomputable def localXAt (pos : Vec3) (ray : Ray) : ℝ :=
  -((rayAt ray (planeT pos.x ray)).z - pos.z)

/-- The local `y` coordinate of the plane hit for the `rotation.y = π/2`
elements. -/
noncomputable def localYAt (pos : Vec3) (ray : Ray) : ℝ :=
  (rayAt ray (planeT pos.x ray)).y - pos.y

/-- The ray parameter at which the infinite ray meets the plane
(`t = -(o·n + c)/(n·d)`). -/
noncomputable def infinitePlaneT (pl : PlaneRec) (ray : Ray) : ℝ :=
  -(Vec3.dot ray.origin pl.normal + pl.constant) / Vec3.dot pl.normal ray.direction

/-- A concrete 650 nm ray for the C1 witness. -/
def c1Ray : Ray := ⟨⟨-1, 0, 0⟩, ⟨1, 0, 0⟩, 650, none, none⟩

/-- A ray meeting the lens plane at `t = 1e-7`, inside the claimed
`t > 0` region but below the code's `1e-6` cutoff. -/
noncomputable def c2Ray : Ray := ⟨⟨-(1 / 10000000), 0, 0⟩, ⟨1, 0, 0⟩, 532, none, none⟩

/-- A concrete on-axis ray for the C2 witness. -/
noncomputable def c2wRay : Ray := ⟨⟨-4, 0, 0⟩, ⟨1, 0, 0⟩, 532, none, none⟩

/-- A ray along `+z` from the origin for the C10 witness. -/
def c10RayZ : Ray := ⟨⟨0, 0, 0⟩, ⟨0, 0, 1⟩, 532, none, none⟩

/-- A ray along `+x` from the origin for the C10 witness. -/
def c10RayX : Ray := ⟨⟨0, 0, 0⟩, ⟨1, 0, 0⟩, 532, none, none⟩

/-- A single in-bounds explicit-color hit for the C5 witness. -/
def c5Hits : List Hit := [⟨⟨8, 0, 0⟩, 650, some ⟨1, 0, 0⟩⟩]

/-! ## Theorems -/

@[simp] theorem Vec3.add_x (a b : Vec3) : (a + b).x = a.x + b.x := rfl

@[simp] theorem Vec3.add_y (a b : Vec3) : (a + b).y = a.y + b.y := rfl

@[simp] theorem Vec3.add_z (a b : Vec3) : (a + b).z = a.z + b.z := rfl

@[simp] theorem Vec3.sub_x (a b : Vec3) : (a - b).x = a.x - b.x := rfl

@[simp] theorem Vec3.sub_y (a b : Vec3) : (a - b).y = a.y - b.y := rfl

@[simp] theorem Vec3.sub_z (a b : Vec3) : (a - b).z = a.z - b.z := rfl

@[simp] theorem Vec3.smul_x (c : ℝ) (v : Vec3) : (c • v).x = c * v.x := rfl

@[simp] theorem Vec3.smul_y (c : ℝ) (v : Vec3) : (c • v).y = c * v.y := rfl

@[simp] theorem Vec3.smul_z (c : ℝ) (v : Vec3) : (c • v).z = c * v.z := rfl

@[simp] theorem mkRay_origin (o d : Vec3) (w : ℝ) (c : Option RGB) :
    (mkRay o d w c).origin = o := rfl

@[simp] theorem mkRay_direction (o d : Vec3) (w : ℝ) (c : Option RGB) :
    (mkRay o d w c).direction = d.normalize := rfl

@[simp] theorem mkRay_wavelength (o d : Vec3) (w : ℝ) (c : Option RGB) :
    (mkRay o d w c).wavelength = w := rfl

@[simp] theorem mkRay_color (o d : Vec3) (w : ℝ) (c : Option RGB) :
    (mkRay o d w c).color = c := rfl

@[simp] theorem mkRay_diffractionOrder (o d : Vec3) (w : ℝ) (c : Option RGB) :
    (mkRay o d w c).diffractionOrder = none := rfl

/-- A `filterMap` of a guarded `some` is `filter` followed by `map`. -/
theorem filterMap_ite_eq_filter_map {α β : Type _} (p : α → Prop) [DecidablePred p]
    (f : α → β) (l : List α) :
    (l.filterMap fun a => if p a then some (f a) else none) =
      (l.filter fun a => decide (p a)).map f := by
  induction l with
  | nil => rfl
  | cons a l ih => by_cases h : p a <;> simp [List.filterMap_cons, List.filter_cons, h, ih]

/-- For a 650 nm ray and 600 lines/mm every order in `{-1, 0, 1}`
propagates. -/
theorem gratingOrders_650_600 : gratingOrders 650 600 = [-1, 0, 1] := by
  unfold gratingOrders
  rw [List.filter_eq_self]
  intro a ha
  simp only [List.mem_cons, List.not_mem_nil, or_false] at ha
  rcases ha with rfl | rfl | rfl <;>
    · simp only [decide_eq_true_eq]
      push_cast
      rw [abs_le]
      norm_num

/-- C1: a ray hitting the transmissive grating inside its 5×5 bound yields
a `Split` whose children are exactly the orders `m ∈ {-1, 0, 1}` with
`|m·λ/d| ≤ 1` (`d = 1e6/linesPerMM`), each child tagged with its
diffraction order and the parent's wavelength; the `m = 0` order always
passes the cutoff, and at 650 nm with 600 lines/mm exactly three rays are
emitted. -/
theorem grating_split_exact_orders (pos : Vec3) (lpm : ℝ) (ray : Ray)
    (ht : (1e-6 : ℝ) < planeT pos.x ray)
    (hy : |(rayAt ray (planeT pos.x ray)).y - pos.y| ≤ 5 / 2)
    (hz : |-((rayAt ray (planeT pos.x ray)).z - pos.z)| ≤ 5 / 2) :
    gratingProcessRay pos lpm ray =
      ProcessResult.newRays
        ((gratingOrders ray.wavelength lpm).map (gratingChild pos lpm ray)) ∧
    (∀ m : ℤ, m ∈ gratingOrders ray.wavelength lpm ↔
      m ∈ ([-1, 0, 1] : List ℤ) ∧
        |((m : ℝ) * ray.wavelength) / (1000000 / lpm)| ≤ 1) ∧
    (0 : ℤ) ∈ gratingOrders ray.wavelength lpm ∧
    (∀ m : ℤ, (gratingChild pos lpm ray m).diffractionOrder = some m ∧
      (gratingChild pos lpm ray m).wavelength = ray.wavelength) ∧
    (ray.wavelength = 650 ∧ lpm = 600 →
      ((gratingOrders ray.wavelength lpm).map (gratingChild pos lpm ray)).length = 3) := by
  refine ⟨?_, ?_, ?_, ?_, ?_⟩
  · simp only [gratingProcessRay]
    rw [if_pos ht, if_pos ⟨hy, hz⟩,
      filterMap_ite_eq_filter_map
        (fun m : ℤ => |((m : ℝ) * ray.wavelength) / (1000000 / lpm)| ≤ 1)
        (gratingChild pos lpm ray)]
    rfl
  · intro m
    simp [gratingOrders, List.mem_filter]
  · simp [gratingOrders]
  · intro m
    exact ⟨rfl, rfl⟩
  · rintro ⟨hw, hl⟩
    rw [hw, hl, List.length_map, gratingOrders_650_600]
    rfl

/-- C1 witness: the theorem applied at a 650 nm ray along `+x` hitting a
600 lines/mm grating at `x = 2`, emitting exactly three orders. -/
theorem grating_split_exact_orders_witness :
    gratingProcessRay ⟨2, 0, 0⟩ 600 c1Ray =
      ProcessResult.newRays ((gratingOrders 650 600).map (gratingChild ⟨2, 0, 0⟩ 600 c1Ray)) ∧
    ((gratingOrders 650 600).map (gratingChild ⟨2, 0, 0⟩ 600 c1Ray)).length = 3 := by
  have hT : planeT (Vec3.mk 2 0 0).x c1Ray = 3 := by
    simp only [planeT, c1Ray]
    norm_num
  have h := grating_split_exact_orders ⟨2, 0, 0⟩ 600 c1Ray
    (by rw [hT]; norm_num)
    (by rw [hT]; simp [rayAt, c1Ray]; norm_num)
    (by rw [hT]; simp [rayAt, c1Ray]; norm_num)
  refine ⟨h.1, ?_⟩
  have := h.2.2.2.2 ⟨rfl, rfl⟩
  simpa [c1Ray] using this

/-- C2 counterexample: this ray has `direction.x ≠ 0`, a forward
intersection (`t > 0`) with the lens plane inside the aperture radius, yet
`processRay` returns no `Redirect` — the code accepts only `t > 1e-6`,
not every `t > 0`. -/
theorem lens_redirect_t_counterexample :
    c2Ray.direction.x ≠ 0 ∧
    0 < planeT (Vec3.mk 0 0 0).x c2Ray ∧
    Real.sqrt (((rayAt c2Ray (planeT (Vec3.mk 0 0 0).x c2Ray)).y - (Vec3.mk 0 0 0).y) ^ 2 +
        ((rayAt c2Ray (planeT (Vec3.mk 0 0 0).x c2Ray)).z - (Vec3.mk 0 0 0).z) ^ 2) ≤ 7 / 2 ∧
    ∀ r : Ray, lensProcessRay ⟨0, 0, 0⟩ 4 c2Ray ≠ ProcessResult.newRay r := by
  have hT : planeT (Vec3.mk 0 0 0).x c2Ray = 1 / 10000000 := by
    simp only [planeT, c2Ray]
    norm_num
  refine ⟨by simp [c2Ray], by rw [hT]; norm_num, ?_, ?_⟩
  · rw [hT]
    simp [rayAt, c2Ray]
    norm_num
  · intro r h
    rw [show lensProcessRay ⟨0, 0, 0⟩ 4 c2Ray = ProcessResult.noInteraction by
        simp only [lensProcessRay]
        rw [if_neg (by simp [c2Ray] : ¬c2Ray.direction.x = 0), hT, if_neg (by norm_num)]] at h
    exact ProcessResult.noConfusion h

/-- C2 (amended): with the code's forward cutoff `t > 1e-6` (instead of
the claimed `t > 0`), a ray with `direction.x ≠ 0` whose intersection
lies within the aperture radius is redirected: origin moved to the
intersection, direction the normalisation of
`(dx, dy - y/f, dz - z/f)` (the `Ray` constructor normalises), wavelength
and color preserved; and a ray with `direction.x = 0` always misses. -/
theorem lens_paraxial_redirect (pos : Vec3) (f : ℝ) (ray : Ray)
    (hdx : ray.direction.x ≠ 0)
    (ht : (1e-6 : ℝ) < planeT pos.x ray)
    (hap : Real.sqrt (((rayAt ray (planeT pos.x ray)).y - pos.y) ^ 2 +
      ((rayAt ray (planeT pos.x ray)).z - pos.z) ^ 2) ≤ 7 / 2) :
    lensProcessRay pos f ray =
      ProcessResult.newRay
        (mkRay (rayAt ray (planeT pos.x ray))
          ⟨ray.direction.x,
           ray.direction.y - ((rayAt ray (planeT pos.x ray)).y - pos.y) / f,
           ray.direction.z - ((rayAt ray (planeT pos.x ray)).z - pos.z) / f⟩
          ray.wavelength ray.color) ∧
    (∀ r : Ray, r.direction.x = 0 → lensProcessRay pos f r = ProcessResult.noInteraction) := by
  constructor
  · simp only [lensProcessRay]
    rw [if_neg hdx, if_pos ht, if_pos hap]
  · intro r hr
    simp only [lensProcessRay]
    rw [if_pos hr]

/-- C2 witness: the amended theorem applied to an on-axis ray through an
`f = 4` lens at the origin. -/
theorem lens_paraxial_redirect_witness :
    lensProcessRay ⟨0, 0, 0⟩ 4 c2wRay =
      ProcessResult.newRay
        (mkRay (rayAt c2wRay (planeT (Vec3.mk 0 0 0).x c2wRay))
          ⟨c2wRay.direction.x,
           c2wRay.direction.y -
             ((rayAt c2wRay (planeT (Vec3.mk 0 0 0).x c2wRay)).y - (Vec3.mk 0 0 0).y) / 4,
           c2wRay.direction.z -
             ((rayAt c2wRay (planeT (Vec3.mk 0 0 0).x c2wRay)).z - (Vec3.mk 0 0 0).z) / 4⟩
          c2wRay.wavelength c2wRay.color) := by
  have hT : planeT (Vec3.mk 0 0 0).x c2wRay = 4 := by
    simp only [planeT, c2wRay]
    norm_num
  exact (lens_paraxial_redirect ⟨0, 0, 0⟩ 4 c2wRay (by simp [c2wRay])
    (by rw [hT]; norm_num)
    (by rw [hT]; simp [rayAt, c2wRay]; norm_num)).1

/-- Scaling by one is the identity on vectors. -/
theorem Vec3.smul_one (v : Vec3) : (1 : ℝ) • v = v := by
  show Vec3.mk (1 * v.x) (1 * v.y) (1 * v.z) = v
  simp only [one_mul]

/-- C4: a forward plane hit on the slit or the aperture is classified three
ways: inside the open region (boundary inclusive) the ray passes through —
`Redirect` at the intersection with the direction unchanged (for a unit
direction) — else within the 5×5 plate it is absorbed, else it misses. -/
theorem slit_aperture_three_way (pos : Vec3) (w h diam : ℝ) (ray : Ray)
    (ht : (1e-6 : ℝ) < planeT pos.x ray) :
    ((|localXAt pos ray| ≤ w / 2 ∧ |localYAt pos ray| ≤ h / 2) →
      slitProcessRay pos w h ray =
        ProcessResult.newRay
          (mkRay (rayAt ray (planeT pos.x ray)) ray.direction ray.wavelength ray.color)) ∧
    (¬(|localXAt pos ray| ≤ w / 2 ∧ |localYAt pos ray| ≤ h / 2) →
      (|localXAt pos ray| ≤ 5 / 2 ∧ |localYAt pos ray| ≤ 5 / 2) →
      slitProcessRay pos w h ray =
        ProcessResult.absorbed (rayAt ray (planeT pos.x ray)) none none) ∧
    (¬(|localXAt pos ray| ≤ w / 2 ∧ |localYAt pos ray| ≤ h / 2) →
      ¬(|localXAt pos ray| ≤ 5 / 2 ∧ |localYAt pos ray| ≤ 5 / 2) →
      slitProcessRay pos w h ray = ProcessResult.noInteraction) ∧
    (Real.sqrt (localXAt pos ray ^ 2 + localYAt pos ray ^ 2) ≤ diam / 2 →
      apertureProcessRay pos diam ray =
        ProcessResult.newRay
          (mkRay (rayAt ray (planeT pos.x ray)) ray.direction ray.wavelength ray.color)) ∧
    (¬Real.sqrt (localXAt pos ray ^ 2 + localYAt pos ray ^ 2) ≤ diam / 2 →
      (|localXAt pos ray| ≤ 5 / 2 ∧ |localYAt pos ray| ≤ 5 / 2) →
      apertureProcessRay pos diam ray =
        ProcessResult.absorbed (rayAt ray (planeT pos.x ray)) none none) ∧
    (¬Real.sqrt (localXAt pos ray ^ 2 + localYAt pos ray ^ 2) ≤ diam / 2 →
      ¬(|localXAt pos ray| ≤ 5 / 2 ∧ |localYAt pos ray| ≤ 5 / 2) →
      apertureProcessRay pos diam ray = ProcessResult.noInteraction) ∧
    (Vec3.length ray.direction = 1 →
      (mkRay (rayAt ray (planeT pos.x ray)) ray.direction ray.wavelength ray.color).direction =
        ray.direction) := by
  refine ⟨?_, ?_, ?_, ?_, ?_, ?_, ?_⟩
  · intro h1
    simp only [localXAt, localYAt] at h1
    simp only [slitProcessRay]
    rw [if_pos ht, if_pos h1]
  · intro h1 h2
    simp only [localXAt, localYAt] at h1 h2
    simp only [slitProcessRay]
    rw [if_pos ht, if_neg h1, if_pos h2]
  · intro h1 h2
    simp only [localXAt, localYAt] at h1 h2
    simp only [slitProcessRay]
    rw [if_pos ht, if_neg h1, if_neg h2]
  · intro h1
    simp only [localXAt, localYAt] at h1
    simp only [apertureProcessRay]
    rw [if_pos ht, if_pos h1]
  · intro h1 h2
    simp only [localXAt, localYAt] at h1 h2
    simp only [apertureProcessRay]
    rw [if_pos ht, if_neg h1, if_pos h2]
  · intro h1 h2
    simp only [localXAt, localYAt] at h1 h2
    simp only [apertureProcessRay]
    rw [if_pos ht, if_neg h1, if_neg h2]
  · intro hu
    rw [mkRay_direction]
    unfold Vec3.normalize
    rw [hu, show (1 / 1 : ℝ) = 1 by norm_num, Vec3.smul_one]

/-- C4 witness: an on-axis ray through a 1×1 slit at the origin passes
through unchanged. -/
theorem slit_aperture_three_way_witness :
    slitProcessRay ⟨0, 0, 0⟩ 1 1 c2wRay =
      ProcessResult.newRay
        (mkRay (rayAt c2wRay (planeT (Vec3.mk 0 0 0).x c2wRay)) c2wRay.direction
          c2wRay.wavelength c2wRay.color) ∧
    (mkRay (rayAt c2wRay (planeT (Vec3.mk 0 0 0).x c2wRay)) c2wRay.direction
        c2wRay.wavelength c2wRay.color).direction = c2wRay.direction := by
  have hT : planeT (Vec3.mk 0 0 0).x c2wRay = 4 := by
    simp only [planeT, c2wRay]
    norm_num
  have h := slit_aperture_three_way ⟨0, 0, 0⟩ 1 1 1 c2wRay (by rw [hT]; norm_num)
  refine ⟨h.1 ?_, h.2.2.2.2.2.2 ?_⟩
  · constructor <;>
      · simp only [localXAt, localYAt, hT]
        norm_num [rayAt, c2wRay]
  · simp only [c2wRay, Vec3.length]
    rw [show ((1 : ℝ) ^ 2 + 0 ^ 2 + 0 ^ 2) = 1 by norm_num, Real.sqrt_one]

/-- Subtracting the start of a translated vector recovers the offset. -/
theorem Vec3.offset_cancel (a b : Vec3) : a + b - a = b := by
  show Vec3.mk (a.x + b.x - a.x) (a.y + b.y - a.y) (a.z + b.z - a.z) = b
  rw [add_sub_cancel_left, add_sub_cancel_left, add_sub_cancel_left]

/-- Dot product pulls scalar factors out of its right argument. -/
theorem Vec3.dot_smul_right (n : Vec3) (c : ℝ) (d : Vec3) :
    Vec3.dot n (c • d) = c * Vec3.dot n d := by
  simp only [Vec3.dot, Vec3.smul_x, Vec3.smul_y, Vec3.smul_z]
  ring

/-- Model fact: `THREE.Plane.intersectLine` over the probe segment
`origin → origin + 100·direction` returns nothing when the infinite ray
meets the plane only beyond parameter 100. -/
theorem intersectLine_beyond_segment (pl : PlaneRec) (ray : Ray)
    (hne : Vec3.dot pl.normal ray.direction ≠ 0)
    (hfar : 100 < infinitePlaneT pl ray) :
    intersectLine pl ray.origin (segmentEnd ray) = none := by
  have hdelta : segmentEnd ray - ray.origin = (100 : ℝ) • ray.direction := by
    simp only [segmentEnd]
    exact Vec3.offset_cancel _ _
  simp only [intersectLine, hdelta, Vec3.dot_smul_right]
  rw [if_neg (mul_ne_zero (by norm_num) hne)]
  have ht : -(Vec3.dot ray.origin pl.normal + pl.constant) /
      (100 * Vec3.dot pl.normal ray.direction) = infinitePlaneT pl ray / 100 := by
    unfold infinitePlaneT
    rw [div_div, mul_comm]
  rw [ht]
  rw [if_pos (Or.inr ((one_lt_div (by norm_num : (0 : ℝ) < 100)).mpr hfar))]

/-- C10: the flat mirror, the spherical mirror and the detector intersect
against the finite segment `origin → origin + 100·direction`; a ray whose
plane intersection lies beyond parameter 100 yields `Miss` even when the
infinite ray would hit inside the element's 5×5 bound. -/
theorem segment_probe_cutoff :
    (∀ (pos : Vec3) (θ : ℝ) (ray : Ray),
      Vec3.dot (rotYNormal θ) ray.direction ≠ 0 →
      100 < infinitePlaneT (planeFromNormalAndCoplanarPoint (rotYNormal θ) pos) ray →
      |(worldToLocalY θ pos
          (rayAt ray
            (infinitePlaneT (planeFromNormalAndCoplanarPoint (rotYNormal θ) pos) ray))).x| ≤
          5 / 2 →
      |(worldToLocalY θ pos
          (rayAt ray
            (infinitePlaneT (planeFromNormalAndCoplanarPoint (rotYNormal θ) pos) ray))).y| ≤
          5 / 2 →
      mirrorProcessRay pos θ ray = ProcessResult.noInteraction) ∧
    (∀ (pos : Vec3) (θ radius : ℝ) (ray : Ray),
      Vec3.dot (rotYNormal θ) ray.direction ≠ 0 →
      100 < infinitePlaneT (planeFromNormalAndCoplanarPoint (rotYNormal θ) pos) ray →
      |(worldToLocalY θ pos
          (rayAt ray
            (infinitePlaneT (planeFromNormalAndCoplanarPoint (rotYNormal θ) pos) ray))).x| ≤
          5 / 2 →
      |(worldToLocalY θ pos
          (rayAt ray
            (infinitePlaneT (planeFromNormalAndCoplanarPoint (rotYNormal θ) pos) ray))).y| ≤
          5 / 2 →
      sphericalMirrorProcessRay pos θ radius ray = ProcessResult.noInteraction) ∧
    (∀ (pos : Vec3) (ray : Ray),
      Vec3.dot (⟨1, 0, 0⟩ : Vec3) ray.direction ≠ 0 →
      100 < infinitePlaneT (planeFromNormalAndCoplanarPoint ⟨1, 0, 0⟩ pos) ray →
      detectorProcessRay pos ray = ProcessResult.noInteraction) := by
  refine ⟨?_, ?_, ?_⟩
  · intro pos θ ray hne hfar _ _
    simp only [mirrorProcessRay]
    rw [intersectLine_beyond_segment _ _ hne hfar]
  · intro pos θ radius ray hne hfar _ _
    simp only [sphericalMirrorProcessRay]
    rw [intersectLine_beyond_segment _ _ hne hfar]
  · intro pos ray hne hfar
    simp only [detectorProcessRay]
    rw [intersectLine_beyond_segment _ _ hne hfar]

/-- C10 witness: a mirror plane 200 units ahead, a spherical mirror 200
units ahead, and a detector 150 units ahead all miss, although each
infinite ray meets the plane at the element's centre. -/
theorem segment_probe_cutoff_witness :
    mirrorProcessRay ⟨0, 0, 200⟩ 0 c10RayZ = ProcessResult.noInteraction ∧
    sphericalMirrorProcessRay ⟨0, 0, 200⟩ 0 2 c10RayZ = ProcessResult.noInteraction ∧
    detectorProcessRay ⟨150, 0, 0⟩ c10RayX = ProcessResult.noInteraction := by
  have hnormal : rotYNormal 0 = (⟨0, 0, 1⟩ : Vec3) := by
    simp [rotYNormal]
  have hdotZ : Vec3.dot (rotYNormal 0) c10RayZ.direction = 1 := by
    rw [hnormal]
    norm_num [Vec3.dot, c10RayZ]
  have htZ : infinitePlaneT (planeFromNormalAndCoplanarPoint (rotYNormal 0) ⟨0, 0, 200⟩)
      c10RayZ = 200 := by
    simp only [infinitePlaneT, planeFromNormalAndCoplanarPoint, hnormal]
    norm_num [Vec3.dot, c10RayZ]
  have hPZ : rayAt c10RayZ (infinitePlaneT
      (planeFromNormalAndCoplanarPoint (rotYNormal 0) ⟨0, 0, 200⟩) c10RayZ) =
      (⟨0, 0, 200⟩ : Vec3) := by
    rw [htZ]
    show Vec3.mk _ _ _ = _
    norm_num [rayAt, c10RayZ]
  have hlocal : worldToLocalY 0 ⟨0, 0, 200⟩ (rayAt c10RayZ (infinitePlaneT
      (planeFromNormalAndCoplanarPoint (rotYNormal 0) ⟨0, 0, 200⟩) c10RayZ)) =
      (⟨0, 0, 0⟩ : Vec3) := by
    rw [hPZ]
    simp [worldToLocalY]
  have hdotX : Vec3.dot (⟨1, 0, 0⟩ : Vec3) c10RayX.direction = 1 := by
    norm_num [Vec3.dot, c10RayX]
  have htX : infinitePlaneT (planeFromNormalAndCoplanarPoint ⟨1, 0, 0⟩ ⟨150, 0, 0⟩)
      c10RayX = 150 := by
    simp only [infinitePlaneT, planeFromNormalAndCoplanarPoint]
    norm_num [Vec3.dot, c10RayX]
  refine ⟨?_, ?_, ?_⟩
  · exact segment_probe_cutoff.1 ⟨0, 0, 200⟩ 0 c10RayZ (by rw [hdotZ]; norm_num)
      (by rw [htZ]; norm_num) (by rw [hlocal]; norm_num) (by rw [hlocal]; norm_num)
  · exact segment_probe_cutoff.2.1 ⟨0, 0, 200⟩ 0 2 c10RayZ (by rw [hdotZ]; norm_num)
      (by rw [htZ]; norm_num) (by rw [hlocal]; norm_num) (by rw [hlocal]; norm_num)
  · exact segment_probe_cutoff.2.2 ⟨150, 0, 0⟩ c10RayX (by rw [hdotX]; norm_num)
      (by rw [htX]; norm_num)

/-- C7: when both running maxima are zero (a trace with no detector hits),
every pixel of the final image is black in every sensor mode — the
normalising division is guarded by a positivity check on the maximum, so
the divide branch is never taken. -/
theorem zero_max_black (n : ℕ) (s : AccumState n) (h1 : s.maxSensor = 0)
    (h2 : s.maxTrueColor = 0) (mode : SensorType) (y x : Fin n) :
    finalPixel n mode s y x = (0, 0, 0) := by
  cases mode <;> simp [finalPixel, h1, h2]

/-- C7 witness: the freshly initialised accumulator renders black in all
three modes. -/
theorem zero_max_black_witness :
    finalPixel 2 SensorType.grayscale (initAccum 2) 0 0 = (0, 0, 0) ∧
    finalPixel 2 SensorType.bayer (initAccum 2) 0 0 = (0, 0, 0) ∧
    finalPixel 2 SensorType.demosaiced (initAccum 2) 0 0 = (0, 0, 0) :=
  ⟨zero_max_black 2 (initAccum 2) rfl rfl SensorType.grayscale 0 0,
   zero_max_black 2 (initAccum 2) rfl rfl SensorType.bayer 0 0,
   zero_max_black 2 (initAccum 2) rfl rfl SensorType.demosaiced 0 0⟩

/-- C8: scaling every accumulated intensity and both running maxima by a
positive constant leaves the final normalised pixel output unchanged in
every sensor mode — each output channel depends only on the ratio
`cell / max`. -/
theorem scale_invariant_normalization (n : ℕ) (mode : SensorType) (s : AccumState n)
    (c : ℝ) (hc : 0 < c) (y x : Fin n) :
    finalPixel n mode (scaleAccum c s) y x = finalPixel n mode s y x := by
  have hcne : c ≠ 0 := ne_of_gt hc
  have hmrev : ∀ m : ℝ, 0 < c * m → 0 < m := fun m hm0 => by nlinarith
  cases mode with
  | grayscale =>
    by_cases hm : 0 < s.maxSensor
    · simp only [finalPixel, scaleAccum]
      rw [if_pos (mul_pos hc hm), if_pos hm, mul_div_mul_left _ _ hcne,
        mul_div_mul_left _ _ hcne, mul_div_mul_left _ _ hcne]
    · simp only [finalPixel, scaleAccum]
      rw [if_neg (fun h0 => hm (hmrev _ h0)), if_neg hm]
  | bayer =>
    by_cases hm : 0 < s.maxSensor
    · simp only [finalPixel, scaleAccum]
      rw [if_pos (mul_pos hc hm), if_pos hm, mul_div_mul_left _ _ hcne,
        mul_div_mul_left _ _ hcne, mul_div_mul_left _ _ hcne]
    · simp only [finalPixel, scaleAccum]
      rw [if_neg (fun h0 => hm (hmrev _ h0)), if_neg hm]
  | demosaiced =>
    by_cases hm : 0 < s.maxTrueColor
    · simp only [finalPixel, scaleAccum]
      rw [if_pos (mul_pos hc hm), if_pos hm, mul_div_mul_left _ _ hcne,
        mul_div_mul_left _ _ hcne, mul_div_mul_left _ _ hcne]
    · simp only [finalPixel, scaleAccum]
      rw [if_neg (fun h0 => hm (hmrev _ h0)), if_neg hm]

/-- C8 witness: doubling the (empty) accumulator changes no output pixel. -/
theorem scale_invariant_normalization_witness :
    finalPixel 1 SensorType.demosaiced (scaleAccum 2 (initAccum 1)) 0 0 =
      finalPixel 1 SensorType.demosaiced (initAccum 1) 0 0 :=
  scale_invariant_normalization 1 SensorType.demosaiced (initAccum 1) 2 (by norm_num) 0 0

/-- C6: a detector hit whose projected pixel coordinates fall outside
`[0, n)` in either axis leaves the whole accumulator (both grids and both
running maxima) exactly unchanged, while the path is still terminated with
the absorption point appended to its polyline. -/
theorem out_of_bounds_hit_discarded (n : ℕ) (detPos : Vec3) (cp : PathState)
    (acc : AccumState n) (pt : Vec3) (wl : ℝ) (col : Option RGB)
    (hout : ¬(0 ≤ detectorPixelX n detPos pt ∧ detectorPixelX n detPos pt < n ∧
      0 ≤ detectorPixelY n detPos pt ∧ detectorPixelY n detPos pt < n)) :
    (detectorAbsorbStep n detPos cp acc pt wl col).2 = acc ∧
    (detectorAbsorbStep n detPos cp acc pt wl col).1.terminated = true ∧
    (detectorAbsorbStep n detPos cp acc pt wl col).1.path = cp.path ++ [pt] := by
  refine ⟨?_, rfl, rfl⟩
  simp only [detectorAbsorbStep, applyDetectorHit]
  rw [dif_neg hout]

/-- C6 witness: a hit 100 units off the detector plate projects to pixel
column -78 and is discarded, leaving the accumulator untouched. -/
theorem out_of_bounds_hit_discarded_witness :
    (detectorAbsorbStep 4 ⟨0, 0, 0⟩ ⟨c10RayX, c10RayX, [], false, false⟩ (initAccum 4)
        ⟨0, 0, 100⟩ 532 none).2 = initAccum 4 ∧
    (detectorAbsorbStep 4 ⟨0, 0, 0⟩ ⟨c10RayX, c10RayX, [], false, false⟩ (initAccum 4)
        ⟨0, 0, 100⟩ 532 none).1.terminated = true := by
  have hpx : detectorPixelX 4 ⟨0, 0, 0⟩ ⟨0, 0, 100⟩ = -78 := by
    unfold detectorPixelX
    rw [show ((-(((100 : ℝ)) - 0)) / 5 + 0.5) * (4 : ℕ) = ((-78 : ℤ) : ℝ) by push_cast; norm_num,
      Int.floor_intCast]
  have h := out_of_bounds_hit_discarded 4 ⟨0, 0, 0⟩ ⟨c10RayX, c10RayX, [], false, false⟩
    (initAccum 4) ⟨0, 0, 100⟩ 532 none
    (by rw [hpx]; intro hcon; have := hcon.1; omega)
  exact ⟨h.1, h.2.1⟩

/-- Componentwise order on RGB is reflexive. -/
theorem RGB.le_refl (a : RGB) : RGB.le a a := ⟨le_rfl, le_rfl, le_rfl⟩

/-- Adding a non-negative contribution never decreases a cell. -/
theorem RGB.le_add_nonneg (a b : RGB) (hb : 0 ≤ b.r ∧ 0 ≤ b.g ∧ 0 ≤ b.b) :
    RGB.le a (RGB.add a b) :=
  ⟨le_add_of_nonneg_right hb.1, le_add_of_nonneg_right hb.2.1, le_add_of_nonneg_right hb.2.2⟩

/-- The Gaussian filter response is non-negative. -/
theorem getFilterResponse_nonneg (wl : ℝ) (c : FilterChannel) : 0 ≤ getFilterResponse wl c := by
  cases c <;> exact Real.exp_nonneg _

/-- The base hue ramp is componentwise non-negative. -/
theorem wavelengthBaseRGB_nonneg (wl : ℝ) :
    0 ≤ (wavelengthBaseRGB wl).r ∧ 0 ≤ (wavelengthBaseRGB wl).g ∧
      0 ≤ (wavelengthBaseRGB wl).b := by
  unfold wavelengthBaseRGB
  split_ifs with h1 h2 h3 h4 h5 h6
  · exact ⟨div_nonneg (by linarith [h1.2]) (by norm_num), le_rfl, by norm_num⟩
  · exact ⟨le_rfl, div_nonneg (by linarith [h2.1]) (by norm_num), by norm_num⟩
  · exact ⟨le_rfl, by norm_num, div_nonneg (by linarith [h3.2]) (by norm_num)⟩
  · exact ⟨div_nonneg (by linarith [h4.1]) (by norm_num), by norm_num, le_rfl⟩
  · exact ⟨by norm_num, div_nonneg (by linarith [h5.2]) (by norm_num), le_rfl⟩
  · exact ⟨by norm_num, le_rfl, le_rfl⟩
  · exact ⟨le_rfl, le_rfl, le_rfl⟩

/-- The intensity falloff factor is non-negative. -/
theorem wavelengthIntensityFactor_nonneg (wl : ℝ) : 0 ≤ wavelengthIntensityFactor wl := by
  unfold wavelengthIntensityFactor
  split_ifs with h1 h2 h3
  · have := h1.1
    linarith
  · norm_num
  · have := h3.2
    linarith
  · exact le_rfl

/-- Wavelength-derived colors are componentwise non-negative. -/
theorem wavelengthToRGB_nonneg (wl : ℝ) :
    0 ≤ (wavelengthToRGB wl).r ∧ 0 ≤ (wavelengthToRGB wl).g ∧ 0 ≤ (wavelengthToRGB wl).b := by
  have hb := wavelengthBaseRGB_nonneg wl
  have hf := wavelengthIntensityFactor_nonneg wl
  exact ⟨mul_nonneg hb.1 hf, mul_nonneg hb.2.1 hf, mul_nonneg hb.2.2 hf⟩

/-- Every `sensor`-grid contribution is non-negative when explicit colors
are. -/
theorem sensorContribution_nonneg (wl : ℝ) (col : Option RGB)
    (hcol : ∀ c, col = some c → 0 ≤ c.r ∧ 0 ≤ c.g ∧ 0 ≤ c.b) :
    0 ≤ (sensorContribution wl col).r ∧ 0 ≤ (sensorContribution wl col).g ∧
      0 ≤ (sensorContribution wl col).b := by
  cases col with
  | some c => exact hcol c rfl
  | none =>
    exact ⟨getFilterResponse_nonneg wl FilterChannel.R,
      getFilterResponse_nonneg wl FilterChannel.G, getFilterResponse_nonneg wl FilterChannel.B⟩

/-- Every `trueColor`-grid contribution is non-negative when explicit
colors are. -/
theorem trueColorContribution_nonneg (wl : ℝ) (col : Option RGB)
    (hcol : ∀ c, col = some c → 0 ≤ c.r ∧ 0 ≤ c.g ∧ 0 ≤ c.b) :
    0 ≤ (trueColorContribution wl col).r ∧ 0 ≤ (trueColorContribution wl col).g ∧
      0 ≤ (trueColorContribution wl col).b := by
  cases col with
  | some c => exact hcol c rfl
  | none => exact wavelengthToRGB_nonneg wl

/-- A point update with a cell-wise larger value only raises cells. -/
theorem updCell_le {n : ℕ} (g : Fin n → Fin n → RGB) (i0 j0 : Fin n) (v : RGB)
    (hv : RGB.le (g i0 j0) v) (i j : Fin n) : RGB.le (g i j) (updCell g i0 j0 v i j) := by
  unfold updCell
  split
  next hij => exact hij.1 ▸ hij.2 ▸ hv
  next => exact RGB.le_refl _

/-- The order on accumulator states is reflexive. -/
theorem accumLe_refl {n : ℕ} (s : AccumState n) : accumLe s s :=
  ⟨fun _ _ => RGB.le_refl _, fun _ _ => RGB.le_refl _⟩

/-- One accumulation step never decreases any cell of either grid. -/
theorem applyDetectorHit_mono (n : ℕ) (detPos : Vec3) (s : AccumState n) (pt : Vec3)
    (wl : ℝ) (col : Option RGB)
    (hcol : ∀ c, col = some c → 0 ≤ c.r ∧ 0 ≤ c.g ∧ 0 ≤ c.b) :
    accumLe s (applyDetectorHit n detPos s pt wl col) := by
  simp only [applyDetectorHit]
  split
  · exact ⟨updCell_le _ _ _ _ (RGB.le_add_nonneg _ _ (sensorContribution_nonneg wl col hcol)),
      updCell_le _ _ _ _ (RGB.le_add_nonneg _ _ (trueColorContribution_nonneg wl col hcol))⟩
  · exact accumLe_refl s

/-- Growing one cell to a value with a larger `cellMax` updates the grid
maximum to the `max` of the old maximum and the new cell. -/
theorem gridMax_updCell {n : ℕ} (g : Fin n → Fin n → RGB) (i0 j0 : Fin n) (v : RGB)
    (hv : cellMax (g i0 j0) ≤ cellMax v) :
    gridMax (updCell g i0 j0 v) = max (gridMax g) (cellMax v) := by
  classical
  unfold gridMax
  have hmem : ((i0, j0) : Fin n × Fin n) ∈ (Finset.univ : Finset (Fin n × Fin n)) :=
    Finset.mem_univ _
  rw [← Finset.insert_erase hmem, Finset.fold_insert (Finset.not_mem_erase _ _),
    Finset.fold_insert (Finset.not_mem_erase _ _)]
  have hcong :
      (Finset.univ.erase ((i0, j0) : Fin n × Fin n)).fold max 0
          (fun p : Fin n × Fin n => cellMax (updCell g i0 j0 v p.1 p.2)) =
        (Finset.univ.erase ((i0, j0) : Fin n × Fin n)).fold max 0
          (fun p : Fin n × Fin n => cellMax (g p.1 p.2)) := by
    apply Finset.fold_congr
    intro p hp
    have hne := Finset.ne_of_mem_erase hp
    unfold updCell
    rw [if_neg]
    intro hcontra
    exact hne (Prod.ext hcontra.1 hcontra.2)
  rw [hcong]
  have hself : updCell g i0 j0 v ((i0, j0) : Fin n × Fin n).1 ((i0, j0) : Fin n × Fin n).2 =
      v := by
    unfold updCell
    rw [if_pos ⟨rfl, rfl⟩]
  rw [hself, sup_right_comm, sup_eq_right.mpr hv]

/-- Appending a non-negative contribution raises `cellMax`. -/
theorem cellMax_le_add (a b : RGB) (hb : 0 ≤ b.r ∧ 0 ≤ b.g ∧ 0 ≤ b.b) :
    cellMax a ≤ cellMax (RGB.add a b) := by
  unfold cellMax RGB.add
  dsimp only
  exact max_le_max (by linarith [hb.1]) (max_le_max (by linarith [hb.2.1])
    (by linarith [hb.2.2]))

/-- The zero grid has maximum zero. -/
theorem gridMax_init (n : ℕ) : gridMax (initAccum n).sensor = 0 := by
  unfold gridMax initAccum
  apply le_antisymm
  · rw [Finset.fold_max_le]
    refine ⟨le_rfl, fun x _ => ?_⟩
    show cellMax ⟨0, 0, 0⟩ ≤ 0
    unfold cellMax
    norm_num
  · rw [Finset.le_fold_max]
    exact Or.inl le_rfl

/-- One accumulation step preserves the running-maximum invariant. -/
theorem applyDetectorHit_maxInv (n : ℕ) (detPos : Vec3) (s : AccumState n) (pt : Vec3)
    (wl : ℝ) (col : Option RGB)
    (hcol : ∀ c, col = some c → 0 ≤ c.r ∧ 0 ≤ c.g ∧ 0 ≤ c.b)
    (hs : maxInvariant s) : maxInvariant (applyDetectorHit n detPos s pt wl col) := by
  simp only [applyDetectorHit]
  split
  · constructor
    · show max s.maxSensor _ = gridMax (updCell s.sensor _ _ _)
      rw [gridMax_updCell _ _ _ _
          (cellMax_le_add _ _ (sensorContribution_nonneg wl col hcol)), hs.1]
      rfl
    · show max s.maxTrueColor _ = gridMax (updCell s.trueColor _ _ _)
      rw [gridMax_updCell _ _ _ _
          (cellMax_le_add _ _ (trueColorContribution_nonneg wl col hcol)), hs.2]
      rfl
  · exact hs

/-- The invariant holds after any sequence of accumulations. -/
theorem runHits_maxInv (n : ℕ) (detPos : Vec3) (hits : List Hit)
    (hnn : ∀ h ∈ hits, hitNonneg h) (s : AccumState n) (hs : maxInvariant s) :
    maxInvariant (runHits n detPos s hits) := by
  induction hits generalizing s with
  | nil => exact hs
  | cons h t ih =>
    exact ih (fun x hx => hnn x (List.mem_cons_of_mem _ hx)) _
      (applyDetectorHit_maxInv n detPos s h.point h.wavelength h.resolvedColor
        (hnn h (List.mem_cons_self _ _)) hs)

/-- C5: within one trace, both accumulation grids start zero-filled with
zero maxima, every accumulation step is monotonically non-decreasing in
each of R, G, B on every cell, and after every prefix of hits each running
maximum equals the componentwise maximum over the cells of its grid. -/
theorem accumulation_monotone_max (n : ℕ) (detPos : Vec3) (hits : List Hit)
    (hnn : ∀ h ∈ hits, hitNonneg h) :
    ((initAccum n).sensor = (fun _ _ => ⟨0, 0, 0⟩) ∧
      (initAccum n).trueColor = (fun _ _ => ⟨0, 0, 0⟩) ∧
      (initAccum n).maxSensor = 0 ∧ (initAccum n).maxTrueColor = 0) ∧
    (∀ k : ℕ, accumLe (runHits n detPos (initAccum n) (hits.take k))
      (runHits n detPos (initAccum n) (hits.take (k + 1)))) ∧
    maxInvariant (runHits n detPos (initAccum n) hits) := by
  have hinit : maxInvariant (initAccum n) := by
    constructor
    · exact (gridMax_init n).symm
    · exact (gridMax_init n).symm
  refine ⟨⟨rfl, rfl, rfl, rfl⟩, ?_, runHits_maxInv n detPos hits hnn _ hinit⟩
  intro k
  by_cases hk : k < hits.length
  · rw [List.take_succ]
    unfold runHits
    rw [List.foldl_append]
    cases hget : hits[k]? with
    | none => exact accumLe_refl _
    | some hh =>
      exact applyDetectorHit_mono n detPos _ hh.point hh.wavelength hh.resolvedColor
        (hnn hh (List.getElem?_mem hget))
  · have hle : hits.length ≤ k := le_of_not_lt hk
    rw [List.take_of_length_le hle, List.take_of_length_le (le_trans hle (Nat.le_succ k))]
    exact accumLe_refl _

/-- C5 witness: the theorem applied to one explicit red hit on a detector
at `x = 8`. -/
theorem accumulation_monotone_max_witness :
    accumLe (runHits 1 ⟨8, 0, 0⟩ (initAccum 1) (c5Hits.take 0))
      (runHits 1 ⟨8, 0, 0⟩ (initAccum 1) (c5Hits.take 1)) ∧
    maxInvariant (runHits 1 ⟨8, 0, 0⟩ (initAccum 1) c5Hits) := by
  have h := accumulation_monotone_max 1 ⟨8, 0, 0⟩ c5Hits ?hnn
  · exact ⟨h.2.1 0, h.2.2⟩
  case hnn =>
    intro hh hmem
    simp only [c5Hits, List.mem_singleton] at hmem
    subst hmem
    intro c hc
    have hc2 : some (⟨1, 0, 0⟩ : RGB) = some c := hc
    rw [← Option.some.inj hc2]
    norm_num

/-- C9: for every laser pattern other than `disc`, the seed population is
independent of the random oracle, and hence the whole trace — path states
and accumulation grids — is identical across invocations; the `disc`
pattern does consume the oracle, and two oracles can produce different
seed populations. -/
theorem nondisc_trace_deterministic :
    (∀ pattern : LaserPattern, pattern ≠ LaserPattern.disc →
      ∀ (ws : WavelengthSetting) (rayCount : ℕ) (laserY laserZ : ℝ) (rand₁ rand₂ : ℕ → ℝ),
        generateInitialRays ws pattern rayCount laserY laserZ rand₁ =
          generateInitialRays ws pattern rayCount laserY laserZ rand₂ ∧
        ∀ (n : ℕ) (els : List Element),
          runTrace n els (generateInitialRays ws pattern rayCount laserY laserZ rand₁) =
            runTrace n els (generateInitialRays ws pattern rayCount laserY laserZ rand₂)) ∧
    (∃ rand₁ rand₂ : ℕ → ℝ,
      generateInitialRays (WavelengthSetting.mono 532) LaserPattern.disc 1 0 0 rand₁ ≠
        generateInitialRays (WavelengthSetting.mono 532) LaserPattern.disc 1 0 0 rand₂) := by
  constructor
  · intro pattern hp ws rayCount laserY laserZ r1 r2
    have hgen : generateInitialRays ws pattern rayCount laserY laserZ r1 =
        generateInitialRays ws pattern rayCount laserY laserZ r2 := by
      unfold generateInitialRays
      congr 1
      funext p
      cases pattern with
      | disc => exact absurd rfl hp
      | line => rfl
      | radial => rfl
      | cross => rfl
      | heart => rfl
      | star => rfl
      | smile => rfl
    exact ⟨hgen, fun n els => by rw [hgen]⟩
  · refine ⟨fun _ => 0, fun _ => 1 / 4, ?_⟩
    intro h
    have key : ∀ rand : ℕ → ℝ,
        generateInitialRays (WavelengthSetting.mono 532) LaserPattern.disc 1 0 0 rand =
          [mkRay
            ⟨-9.75,
             0 + 1 / 2 * Real.sqrt (rand 0) * Real.sin (rand 1 * (2 * Real.pi)),
             0 + 1 / 2 * Real.sqrt (rand 0) * Real.cos (rand 1 * (2 * Real.pi))⟩
            ⟨1, 0, 0⟩ 532 none] := by
      intro rand
      simp [generateInitialRays, wavelengthList, patternRays, List.range_succ]
    rw [key, key] at h
    have hray := List.head_eq_of_cons_eq h
    have hy := congrArg (fun r : Ray => r.origin.y) hray
    simp only [mkRay_origin] at hy
    have hs0 : Real.sqrt 0 = 0 := Real.sqrt_zero
    have hs4 : Real.sqrt (1 / 4) = 1 / 2 := by
      rw [show (1 / 4 : ℝ) = (1 / 2) ^ 2 by norm_num,
        Real.sqrt_sq (by norm_num : (0 : ℝ) ≤ 1 / 2)]
    have hsin : Real.sin (1 / 4 * (2 * Real.pi)) = 1 := by
      rw [show (1 / 4 : ℝ) * (2 * Real.pi) = Real.pi / 2 by ring, Real.sin_pi_div_two]
    rw [hs0, hs4, hsin] at hy
    norm_num at hy

/-- C9 witness: the theorem applied to the `line` pattern with two
different oracles, through a single-detector trace. -/
theorem nondisc_trace_deterministic_witness :
    generateInitialRays (WavelengthSetting.mono 532) LaserPattern.line 2 0 0 (fun _ => 0) =
      generateInitialRays (WavelengthSetting.mono 532) LaserPattern.line 2 0 0
        (fun _ => 1 / 4) ∧
    runTrace 4 [Element.detector ⟨8, 0, 0⟩]
        (generateInitialRays (WavelengthSetting.mono 532) LaserPattern.line 2 0 0
          (fun _ => 0)) =
      runTrace 4 [Element.detector ⟨8, 0, 0⟩]
        (generateInitialRays (WavelengthSetting.mono 532) LaserPattern.line 2 0 0
          (fun _ => 1 / 4)) := by
  have h := nondisc_trace_deterministic.1 LaserPattern.line
    (fun hc => LaserPattern.noConfusion hc) (WavelengthSetting.mono 532) 2 0 0
    (fun _ => 0) (fun _ => 1 / 4)
  exact ⟨h.1, h.2 4 [Element.detector ⟨8, 0, 0⟩]⟩

/-- C3 (amended): when the imaging denominator `1/f - 1/so` is zero or
near-zero (`|1/f - 1/so| < 1e-9`, `so` the detector-to-lens axial
distance), the camera-image-object grid build resolves the sample by the
defined fallback — a black perfect-image pixel, no source origin, black
source color — and consequently emits no rays at all for that sample (in
particular no undeviated ray); no NaN or infinity is produced and the
build continues with the next pixel. -/
theorem imaging_degenerate_skips_sample (f : ℝ) (lensPos detPos : Vec3) (detW detH : ℝ)
    (gridSize : ℕ) (imgObjPos : Vec3) (imgObjW imgObjH : ℝ) (imgW imgH : ℕ)
    (imgData : ℕ → ℕ → RGB) (py px : ℕ) (lensRadius : ℝ)
    (hden : abs (1 / f - 1 / |detPos.x - lensPos.x|) < 1e-9) :
    computeSourceSample f lensPos detPos detW detH gridSize imgObjPos imgObjW imgObjH
        imgW imgH imgData py px = (⟨⟨0, 0, 0⟩, none, ⟨0, 0, 0⟩⟩ : SourceSample) ∧
    raysForSample lensPos lensRadius
        (computeSourceSample f lensPos detPos detW detH gridSize imgObjPos imgObjW imgObjH
          imgW imgH imgData py px) = [] := by
  have h1 : computeSourceSample f lensPos detPos detW detH gridSize imgObjPos imgObjW
      imgObjH imgW imgH imgData py px = (⟨⟨0, 0, 0⟩, none, ⟨0, 0, 0⟩⟩ : SourceSample) := by
    simp only [computeSourceSample]
    rw [if_pos hden]
  exact ⟨h1, by rw [h1]; rfl⟩

/-- C3 counterexample: with `f = 4`, the lens at the origin and the
detector at `x = 4`, the denominator is exactly zero; the code's grid
build then yields a sample with no source origin and emits the empty ray
list — not the undeviated ray toward the lens center that the claim
asserts. -/
theorem imaging_degenerate_no_ray_counterexample :
    1 / (4 : ℝ) - 1 / |(Vec3.mk (4 : ℝ) 0 0).x - (Vec3.mk (0 : ℝ) 0 0).x| = 0 ∧
    (computeSourceSample 4 ⟨0, 0, 0⟩ ⟨4, 0, 0⟩ 5 5 10 ⟨-10, 0, 0⟩ 5 4 8 8
        (fun _ _ => ⟨255, 255, 255⟩) 5 5).sourceOrigin = none ∧
    raysForSample ⟨0, 0, 0⟩ 3.5
        (computeSourceSample 4 ⟨0, 0, 0⟩ ⟨4, 0, 0⟩ 5 5 10 ⟨-10, 0, 0⟩ 5 4 8 8
          (fun _ _ => ⟨255, 255, 255⟩) 5 5) = [] := by
  have habs : |(Vec3.mk (4 : ℝ) 0 0).x - (Vec3.mk (0 : ℝ) 0 0).x| = 4 := by
    show |(4 : ℝ) - 0| = 4
    rw [show (4 : ℝ) - 0 = 4 by norm_num]
    exact abs_of_nonneg (by norm_num)
  have hden : abs (1 / (4 : ℝ) -
      1 / |(Vec3.mk (4 : ℝ) 0 0).x - (Vec3.mk (0 : ℝ) 0 0).x|) < 1e-9 := by
    rw [habs, show (1 / (4 : ℝ) - 1 / 4) = 0 by norm_num, abs_zero]
    norm_num
  have h := imaging_degenerate_skips_sample 4 ⟨0, 0, 0⟩ ⟨4, 0, 0⟩ 5 5 10 ⟨-10, 0, 0⟩ 5 4 8 8
    (fun _ _ => ⟨255, 255, 255⟩) 5 5 3.5 hden
  refine ⟨by rw [habs]; norm_num, ?_, h.2⟩
  rw [h.1]

/-- C3 witness: the amended theorem applied with the detector one focal
length from the lens (`f = 2`, detector at `x = 2`). -/
theorem imaging_degenerate_skips_sample_witness :
    computeSourceSample 2 ⟨0, 0, 0⟩ ⟨2, 0, 0⟩ 5 5 10 ⟨-10, 0, 0⟩ 5 4 8 8
        (fun _ _ => ⟨0, 0, 0⟩) 0 0 = (⟨⟨0, 0, 0⟩, none, ⟨0, 0, 0⟩⟩ : SourceSample) ∧
    raysForSample ⟨0, 0, 0⟩ 3.5
        (computeSourceSample 2 ⟨0, 0, 0⟩ ⟨2, 0, 0⟩ 5 5 10 ⟨-10, 0, 0⟩ 5 4 8 8
          (fun _ _ => ⟨0, 0, 0⟩) 0 0) = [] := by
  apply imaging_degenerate_skips_sample
  show abs (1 / (2 : ℝ) - 1 / |(2 : ℝ) - 0|) < 1e-9
  rw [show (2 : ℝ) - 0 = 2 by norm_num, abs_of_nonneg (by norm_num : (0 : ℝ) ≤ 2),
    show (1 / (2 : ℝ) - 1 / 2) = 0 by norm_num, abs_zero]
  norm_num

end OpticsLab
